import Mathlib

/-
Shallow embedding of stefansundin/kube-tunnel-proxy.

The repository has two source files with the same structure:
  * src/main.go            — hardcoded config map, PortForward goroutine per tunnel
  * src/unnamed/part_000   — same program reading a TOML config file first
Both share the types Tunnel / Logger, the Logger.Write method, and the
PortForward function (identical control flow; only parameter passing differs).
The embedding below models part_000's main (which subsumes main.go's by
treating the configuration stage explicitly) and the shared PortForward.

External collaborators (kubernetes client, spdy, the portforward library,
the filesystem, the TOML decoder) are modelled as an environment of
outcomes: each call site in the Go code consults the corresponding
environment field.  Process-wide effects are explicit:
  * `panic(...)` in Go terminates the whole process (a panic in any
    goroutine crashes the program) — modelled by `ProcOutcome.panicked`;
  * `os.Exit(n)` terminates the whole process — `ProcOutcome.exited n`;
  * a normal return from PortForward (session terminal, process continues)
    is `ProcOutcome.returned`.
Log output via fmt.Printf is modelled as `Event.logLine` entries in a trace.
-/

namespace KubeTunnelProxy

/-- Tunnel (src/unnamed/part_000 lines 29-34): one declared tunnel. -/
structure Tunnel where
  Namespace : String
  Selector : String
  PodPort : Int
  LocalPort : Int
deriving DecidableEq, Repr

/-- Context (src/unnamed/part_000 lines 25-28): a named context with its tunnels. -/
structure Context where
  Name : String
  Tunnels : List Tunnel
deriving DecidableEq, Repr

/-- Config (src/unnamed/part_000 lines 22-24): the decoded configuration. -/
structure Config where
  Contexts : List Context
deriving DecidableEq, Repr

/-- Logger (src/unnamed/part_000 lines 36-39). -/
structure Logger where
  Context : String
  Tag : String
deriving DecidableEq, Repr

/-- Logger.Write (src/unnamed/part_000 lines 41-44, src/main.go lines 31-34):
formats and prints the message, then returns (0, nil).  The first component
is the string printed to stdout; the second is the (int, error) return pair,
with `none` standing for Go's nil error. -/
def Logger.Write (l : Logger) (b : String) : String × (Nat × Option String) :=
  ("[" ++ l.Context ++ "] Logger: " ++ l.Tag ++ ", " ++ b, (0, none))

/-- Observable events of a run: log lines written with fmt.Printf, the
fmt.Println(config) dump, the pod-list query (target resolution), and the
opening of the upgraded channel (entering fw.ForwardPorts). -/
inductive Event where
  | logLine (s : String)
  | configPrinted
  | resolve (ns sel : String)
  | channelOpened (pod : String)
deriving DecidableEq, Repr

/-- How a unit of Go code finishes: a normal return, a panic (which
terminates the whole process, whichever goroutine it happens on), or an
explicit os.Exit. -/
inductive ProcOutcome where
  | returned
  | panicked (msg : String)
  | exited (code : Nat)
deriving DecidableEq, Repr

/-- `true` exactly when the outcome terminates the whole process rather
than just the returning function. -/
def ProcOutcome.terminatesProcess : ProcOutcome → Bool
  | .returned => false
  | .panicked _ => true
  | .exited _ => true

def ProcOutcome.isReturned : ProcOutcome → Bool
  | .returned => true
  | _ => false

/-- Collaborator outcomes consumed by one PortForward call, in the order
the Go code consults them: the pod list query (returning pod names in the
collaborator's order), spdy.RoundTripperFor, portforward.New, and
fw.ForwardPorts. -/
structure SessionEnv where
  listPods : Except String (List String)
  roundTripper : Except String Unit
  forwardNew : Except String Unit
  forwardPorts : Except String Unit

/-- Result of one PortForward call: its event trace, the pod the resolver
picked (if any), and how the call finished. -/
structure SessionResult where
  events : List Event
  resolvedPod : Option String
  outcome : ProcOutcome
deriving DecidableEq, Repr

/-- The "[ctx] No pods found: sel.\n" line (part_000 line 98, main.go line 87). -/
def noPodsLine (context sel : String) : String :=
  "[" ++ context ++ "] No pods found: " ++ sel ++ ".\n"

/-- The "[ctx] Forwarding localhost:l to pod p:r\n" line (part_000 line 103). -/
def forwardingLine (context : String) (t : Tunnel) (pod : String) : String :=
  "[" ++ context ++ "] Forwarding localhost:" ++ toString t.LocalPort ++
    " to pod " ++ pod ++ ":" ++ toString t.PodPort ++ "\n"

/-- PortForward (src/unnamed/part_000 lines 86-159, src/main.go lines 75-148).
Control flow, line by line:
  * list pods matching the selector; on error, panic (process dies);
  * if no pod matches, print the no-pods line and return;
  * pick pods.Items[0], print the forwarding line;
  * spdy.RoundTripperFor: on error, print "Error: ..." and os.Exit(1);
  * portforward.New: on error, panic;
  * fw.ForwardPorts (dials/upgrades the channel and forwards):
    on error, panic; on success, return.
The stop/ready channels and the signal-handler goroutine are modelled
separately (SignalState below), as they do not alter this control flow. -/
def PortForward (env : SessionEnv) (context : String) (tunnel : Tunnel) :
    SessionResult :=
  let resolveEv := Event.resolve tunnel.Namespace tunnel.Selector
  match env.listPods with
  | .error e => ⟨[resolveEv], none, .panicked e⟩
  | .ok [] =>
      ⟨[resolveEv, .logLine (noPodsLine context tunnel.Selector)], none, .returned⟩
  | .ok (podName :: _) =>
      let fwdEv := Event.logLine (forwardingLine context tunnel podName)
      match env.roundTripper with
      | .error e =>
          ⟨[resolveEv, fwdEv, .logLine ("Error: " ++ e ++ "\n")],
            some podName, .exited 1⟩
      | .ok _ =>
          match env.forwardNew with
          | .error e => ⟨[resolveEv, fwdEv], some podName, .panicked e⟩
          | .ok _ =>
              match env.forwardPorts with
              | .error e =>
                  ⟨[resolveEv, fwdEv, .channelOpened podName],
                    some podName, .panicked e⟩
              | .ok _ =>
                  ⟨[resolveEv, fwdEv, .channelOpened podName],
                    some podName, .returned⟩

def isResolveEvent : Event → Bool
  | .resolve _ _ => true
  | _ => false

def isChannelOpenedEvent : Event → Bool
  | .channelOpened _ => true
  | _ => false

/-- State of one Session's stop-signal machinery (part_000 lines 105-118,
main.go lines 94-107).  The Go code spawns one goroutine that performs a
single receive from the signals channel, then (guarded by the always-true
`stopChan != nil` check — stopChan is created just above and never
reassigned) closes stopChan once and exits.  `handlerActive` records that
the goroutine is still blocked on its one receive; once it has run, later
interrupts are never observed by it. -/
structure SignalState where
  handlerActive : Bool
  stopChanNil : Bool
  stopClosed : Bool
  closeCount : Nat
deriving DecidableEq, Repr

/-- State right after PortForward sets up stopChan and the goroutine:
the goroutine is waiting, stopChan is non-nil, not yet closed. -/
def initialSignalState : SignalState :=
  { handlerActive := true, stopChanNil := false, stopClosed := false, closeCount := 0 }

/-- Delivering one interrupt to the Session's signal goroutine.  If the
goroutine is still waiting, it runs its body — the nil guard, then
close(stopChan) — and exits; otherwise the interrupt is not observed. -/
def deliverInterrupt (s : SignalState) : SignalState :=
  if s.handlerActive then
    if s.stopChanNil then
      { s with handlerActive := false }
    else
      { s with handlerActive := false, stopClosed := true,
               closeCount := s.closeCount + 1 }
  else s

/-- Delivering n successive interrupts. -/
def iterInterrupt : Nat → SignalState → SignalState
  | 0, s => s
  | n + 1, s => iterInterrupt n (deliverInterrupt s)

lemma deliverInterrupt_handlerActive (s : SignalState) :
    (deliverInterrupt s).handlerActive = false ∨ deliverInterrupt s = s := by
  unfold deliverInterrupt
  by_cases h : s.handlerActive
  · simp [h]
    by_cases h2 : s.stopChanNil <;> simp [h2]
  · simp [h]

lemma deliverInterrupt_inactive (s : SignalState) (h : s.handlerActive = false) :
    deliverInterrupt s = s := by
  unfold deliverInterrupt
  simp [h]

lemma iterInterrupt_inactive (n : Nat) (s : SignalState)
    (h : s.handlerActive = false) : iterInterrupt n s = s := by
  induction n with
  | zero => rfl
  | succ n ih => simp [iterInterrupt, deliverInterrupt_inactive s h, ih]

/-- Collaborator outcomes consumed by main (src/unnamed/part_000 lines
46-84): reading kube-tunnel-proxy.toml, TOML decoding (on failure the
decoder reports the error but may leave the struct partially populated,
hence the error carries the resulting Config), per-context
clientcmd ClientConfig resolution and kubernetes.NewForConfig, and the
SessionEnv each spawned PortForward goroutine will consume. -/
structure MainEnv where
  readFile : Except String String
  decode : String → Except (String × Config) Config
  clientConfig : String → Except String Unit
  newForConfig : String → Except String Unit
  session : String → Tunnel → SessionEnv

/-- Result of main's body up to wg.Wait (src/unnamed/part_000 lines 46-83):
its own event trace, the (context, tunnel) pairs whose PortForward
goroutines were spawned, and whether main panicked during setup
(`.panicked`) or reached wg.Wait (`.returned`). -/
structure MainResult where
  events : List Event
  spawned : List (String × Tunnel)
  outcome : ProcOutcome
deriving DecidableEq, Repr

/-- The "[name] Setting up n tunnels.\n" line (part_000 line 61, main.go line 50). -/
def settingUpLine (name : String) (n : Nat) : String :=
  "[" ++ name ++ "] Setting up " ++ toString n ++ " tunnels.\n"

/-- The context loop of main (src/unnamed/part_000 lines 60-82): for each
context, print the setting-up line, resolve the client config (panic on
error), build the clientset (panic on error), then spawn one PortForward
goroutine per tunnel (wg.Add(1); go PortForward(...)).  A panic stops the
loop; tunnels of contexts already processed were already spawned. -/
def setupLoop (env : MainEnv) : List Context → List Event × List (String × Tunnel) × Option String
  | [] => ([], [], none)
  | c :: rest =>
      let ev0 := Event.logLine (settingUpLine c.Name c.Tunnels.length)
      match env.clientConfig c.Name with
      | .error e => ([ev0], [], some e)
      | .ok _ =>
          match env.newForConfig c.Name with
          | .error e => ([ev0], [], some e)
          | .ok _ =>
              let spawnedHere := c.Tunnels.map (fun t => (c.Name, t))
              let r := setupLoop env rest
              (ev0 :: r.1, spawnedHere ++ r.2.1, r.2.2)

/-- main (src/unnamed/part_000 lines 46-84).  Control flow:
  * ioutil.ReadFile("kube-tunnel-proxy.toml"); on error fmt.Println(err)
    and CONTINUE with tomlData = nil (string(nil) = "");
  * toml.Decode; on error fmt.Println(err) and CONTINUE with whatever the
    decoder left in config;
  * fmt.Println(config);
  * the context loop (setupLoop), which may panic;
  * wg.Wait() — modelled downstream in runProcess. -/
def kubeMain (env : MainEnv) : MainResult :=
  let readStep : List Event × String :=
    match env.readFile with
    | .error e => ([Event.logLine (e ++ "\n")], "")
    | .ok s => ([], s)
  let decodeStep : List Event × Config :=
    match env.decode readStep.2 with
    | .error ec => ([Event.logLine (ec.1 ++ "\n")], ec.2)
    | .ok c => ([], c)
  let loop := setupLoop env decodeStep.2.Contexts
  match loop.2.2 with
  | some e =>
      ⟨readStep.1 ++ decodeStep.1 ++ [Event.configPrinted] ++ loop.1,
        loop.2.1, .panicked e⟩
  | none =>
      ⟨readStep.1 ++ decodeStep.1 ++ [Event.configPrinted] ++ loop.1,
        loop.2.1, .returned⟩

/-- Result of the whole process: main's own events, the result of every
PortForward goroutine that was spawned, and the process outcome. -/
structure ProcResult where
  events : List Event
  sessionResults : List (String × Tunnel × SessionResult)
  outcome : ProcOutcome
deriving DecidableEq, Repr

/-- Running the spawned PortForward goroutines: each consumes its own
SessionEnv from the environment. -/
def spawnResults (env : MainEnv) (spawned : List (String × Tunnel)) :
    List (String × Tunnel × SessionResult) :=
  spawned.map (fun ct => (ct.1, ct.2, PortForward (env.session ct.1 ct.2) ct.1 ct.2))

/-- The wg.Wait stage of the process.  If main panicked during setup, the
process dies with that panic (goroutines spawned so far are killed with
it).  Otherwise main blocks in wg.Wait() until every spawned PortForward
has called wg.Done(): if every session returned normally the process
exits 0 after all of them are terminal; if any session panicked or called
os.Exit, the process is terminated by the first such failure instead. -/
def runSessions (env : MainEnv) (m : MainResult) : ProcResult :=
  match m.outcome with
  | .panicked e => ⟨m.events, [], .panicked e⟩
  | .exited n => ⟨m.events, [], .exited n⟩
  | .returned =>
      if (spawnResults env m.spawned).all (fun r => r.2.2.outcome.isReturned) then
        ⟨m.events ++ (spawnResults env m.spawned).flatMap (fun r => r.2.2.events),
          spawnResults env m.spawned, .exited 0⟩
      else
        match ((spawnResults env m.spawned).map (fun r => r.2.2.outcome)).find?
            (fun o => !o.isReturned) with
        | some o => ⟨m.events, spawnResults env m.spawned, o⟩
        | none => ⟨m.events, spawnResults env m.spawned, .exited 0⟩

def runProcess (env : MainEnv) : ProcResult :=
  runSessions env (kubeMain env)

/-- The exit code the operating system observes: 0 for a clean return,
2 for a Go panic, n for os.Exit(n). -/
def exitCodeOf : ProcOutcome → Nat
  | .returned => 0
  | .panicked _ => 2
  | .exited n => n

/- Concrete fixtures, used by counterexamples and witnesses.  They follow
the scenario of spec §8: context "minikube"/"c1", the dashboard tunnel. -/

def dashboardTunnel : Tunnel :=
  ⟨"kube-system", "app=kubernetes-dashboard", 9090, 8000⟩

def secondTunnel : Tunnel :=
  ⟨"default", "app=x", 9091, 8001⟩

/-- A session whose collaborators all succeed, one matching pod. -/
def happySession : SessionEnv :=
  ⟨Except.ok ["x-abc123"], Except.ok (), Except.ok (), Except.ok ()⟩

/-- A session whose pod-list query fails. -/
def listErrorSession : SessionEnv :=
  ⟨Except.error "connection refused", Except.ok (), Except.ok (), Except.ok ()⟩

/-- A session whose spdy.RoundTripperFor call fails. -/
def upgradeErrorSession : SessionEnv :=
  ⟨Except.ok ["x-abc123"], Except.error "invalid configuration", Except.ok (),
    Except.ok ()⟩

/-- A session whose selector matches zero pods. -/
def noPodsSession : SessionEnv :=
  ⟨Except.ok [], Except.ok (), Except.ok (), Except.ok ()⟩

lemma deliverInterrupt_deactivates (s : SignalState) (h : s.handlerActive = true) :
    (deliverInterrupt s).handlerActive = false := by
  unfold deliverInterrupt
  by_cases h2 : s.stopChanNil <;> simp [h, h2]

/-- Claim C7: for every Session, target resolution (the pod-list query) is
performed exactly once, as the very first step, hence strictly before any
Channel is opened; no resolution retry ever occurs.  Formally: in every
environment, PortForward's trace contains exactly one resolve event and
that event is the head of the trace. -/
theorem c7_resolution_once_before_channel (env : SessionEnv) (context : String)
    (t : Tunnel) :
    (PortForward env context t).events.countP isResolveEvent = 1 ∧
    (PortForward env context t).events.head? =
      some (Event.resolve t.Namespace t.Selector) := by
  obtain ⟨lp, rt, fn, fp⟩ := env
  cases lp with
  | error e => simp [PortForward, isResolveEvent, List.countP_cons, List.countP_nil]
  | ok pods =>
      cases pods with
      | nil => simp [PortForward, isResolveEvent, List.countP_cons, List.countP_nil]
      | cons p ps =>
          cases rt <;> cases fn <;> cases fp <;>
            simp [PortForward, isResolveEvent, List.countP_cons, List.countP_nil]

/-- Claim C8: a Session's stop machinery fires exactly once and is
idempotent under duplicate interrupts: delivering a second interrupt to a
Session whose handler has already run changes nothing, and after any
number of interrupts stopChan has been closed at most once (exactly
min n 1 times after n interrupts). -/
theorem c8_stop_idempotent :
    (∀ s : SignalState, deliverInterrupt (deliverInterrupt s) = deliverInterrupt s) ∧
    (∀ n : Nat, (iterInterrupt n initialSignalState).closeCount = min n 1) := by
  constructor
  · intro s
    by_cases h : s.handlerActive
    · exact deliverInterrupt_inactive _ (deliverInterrupt_deactivates s h)
    · have hs : deliverInterrupt s = s :=
        deliverInterrupt_inactive s (by simpa using h)
      rw [hs, hs]
  · intro n
    cases n with
    | zero => rfl
    | succ n =>
        have h1 : deliverInterrupt initialSignalState =
            { handlerActive := false, stopChanNil := false,
              stopClosed := true, closeCount := 1 } := by
          decide
        have h2 : iterInterrupt (n + 1) initialSignalState =
            { handlerActive := false, stopChanNil := false,
              stopClosed := true, closeCount := 1 } := by
          show iterInterrupt n (deliverInterrupt initialSignalState) = _
          rw [h1]
          exact iterInterrupt_inactive n _ rfl
        rw [h2]
        simp [Nat.min_def]

/-- Claim C9: when the selector matches more than zero pods (in particular
more than one), the resolver picks exactly the first pod in the order the
cluster query collaborator returned. -/
theorem c9_picks_first_pod (env : SessionEnv) (context : String) (t : Tunnel)
    (p : String) (ps : List String) (h : env.listPods = Except.ok (p :: ps)) :
    (PortForward env context t).resolvedPod = some p := by
  obtain ⟨lp, rt, fn, fp⟩ := env
  simp only at h
  subst h
  cases rt <;> cases fn <;> cases fp <;> simp [PortForward]

/-- Witness for C9 at a concrete two-pod environment. -/
theorem c9_picks_first_pod_witness :
    (⟨Except.ok ["x-abc123", "x-def456"], Except.ok (), Except.ok (),
        Except.ok ()⟩ : SessionEnv).listPods =
      Except.ok ["x-abc123", "x-def456"] ∧
    (PortForward
      ⟨Except.ok ["x-abc123", "x-def456"], Except.ok (), Except.ok (),
        Except.ok ()⟩ "minikube" dashboardTunnel).resolvedPod = some "x-abc123" :=
  ⟨rfl, c9_picks_first_pod _ "minikube" dashboardTunnel "x-abc123" ["x-def456"] rfl⟩

/-- Claim C10: Logger.Write formats the message with the logger's context
and tag, and returns the pair (0, nil) — never an error, always zero bytes
consumed — for every input string. -/
theorem c10_logger_write (l : Logger) (b : String) :
    Logger.Write l b =
      ("[" ++ l.Context ++ "] Logger: " ++ l.Tag ++ ", " ++ b, (0, none)) := rfl

/- Main-level fixtures. -/

/-- One context "minikube" with two sibling tunnels; the first tunnel's
pod-list query fails, the second tunnel's collaborators are all healthy. -/
def envC1 : MainEnv :=
  { readFile := Except.ok "cfg"
    decode := fun _ =>
      Except.ok ⟨[⟨"minikube", [dashboardTunnel, secondTunnel]⟩]⟩
    clientConfig := fun _ => Except.ok ()
    newForConfig := fun _ => Except.ok ()
    session := fun _ t =>
      if t.LocalPort = 8000 then listErrorSession else happySession }

/-- Two contexts; resolving "c1"'s client config fails, "c2"'s succeeds. -/
def envC3 : MainEnv :=
  { readFile := Except.ok "cfg"
    decode := fun _ =>
      Except.ok ⟨[⟨"c1", [dashboardTunnel]⟩, ⟨"c2", [secondTunnel]⟩]⟩
    clientConfig := fun name =>
      if name = "c1" then Except.error "context c1 not found" else Except.ok ()
    newForConfig := fun _ => Except.ok ()
    session := fun _ _ => happySession }

/-- Reading kube-tunnel-proxy.toml fails; toml.Decode of the resulting
empty string succeeds with the zero-value Config (no contexts). -/
def envC4 : MainEnv :=
  { readFile := Except.error "open kube-tunnel-proxy.toml: no such file or directory"
    decode := fun _ => Except.ok ⟨[]⟩
    clientConfig := fun _ => Except.ok ()
    newForConfig := fun _ => Except.ok ()
    session := fun _ _ => happySession }

/-- Counterexample to claim C1 as stated.  The claim says a failure inside
one tunnel's Session (e.g. a failed pod-list query) terminates only that
Session, never the sibling Sessions or the whole process.  In envC1 both
sibling sessions are spawned, the first session's pod-list query fails,
and the whole process is terminated by its panic. -/
theorem c1_counterexample :
    (kubeMain envC1).spawned =
      [("minikube", dashboardTunnel), ("minikube", secondTunnel)] ∧
    (runProcess envC1).outcome = ProcOutcome.panicked "connection refused" ∧
    (ProcOutcome.panicked "connection refused").terminatesProcess = true :=
  ⟨rfl, rfl, rfl⟩

/-- Claim C1 (amended): a failure inside a tunnel's Session — a failed
pod-list query, or a forwarding error returned by fw.ForwardPorts — causes
a Go panic, which terminates the whole process (all sibling Sessions with
it), not only the failing Session. -/
theorem c1_amended (env : SessionEnv) (context : String) (t : Tunnel)
    (e : String) :
    (env.listPods = Except.error e →
      (PortForward env context t).outcome = ProcOutcome.panicked e ∧
      (PortForward env context t).outcome.terminatesProcess = true) ∧
    (∀ p ps, env.listPods = Except.ok (p :: ps) →
      env.roundTripper = Except.ok () → env.forwardNew = Except.ok () →
      env.forwardPorts = Except.error e →
      (PortForward env context t).outcome = ProcOutcome.panicked e ∧
      (PortForward env context t).outcome.terminatesProcess = true) := by
  obtain ⟨lp, rt, fn, fp⟩ := env
  constructor
  · intro h
    simp only at h
    subst h
    exact ⟨rfl, rfl⟩
  · intro p ps h1 h2 h3 h4
    simp only at h1 h2 h3 h4
    subst h1; subst h2; subst h3; subst h4
    exact ⟨rfl, rfl⟩

/-- Witness for C1 (amended): the failed pod-list query at a concrete
environment, and a concrete forwarding failure. -/
theorem c1_amended_witness :
    listErrorSession.listPods = Except.error "connection refused" ∧
    (PortForward listErrorSession "minikube" dashboardTunnel).outcome =
      ProcOutcome.panicked "connection refused" :=
  ⟨rfl,
    ((c1_amended listErrorSession "minikube" dashboardTunnel
      "connection refused").1 rfl).1⟩

/-- Counterexample to claim C2 as stated.  The claim says that when the
transport upgrade fails only that Session terminates and the process
continues.  With a failing spdy.RoundTripperFor the code calls os.Exit(1):
the whole process terminates. -/
theorem c2_counterexample :
    upgradeErrorSession.roundTripper = Except.error "invalid configuration" ∧
    (PortForward upgradeErrorSession "minikube" dashboardTunnel).outcome =
      ProcOutcome.exited 1 ∧
    (ProcOutcome.exited 1).terminatesProcess = true :=
  ⟨rfl, rfl, rfl⟩

/-- Claim C2 (amended): when building the SPDY round tripper fails, the
error is printed to standard output (plain fmt.Printf, not the Logger
sink) and the whole process exits with code 1; no other Session survives
it. -/
theorem c2_amended (env : SessionEnv) (context : String) (t : Tunnel)
    (p : String) (ps : List String) (e : String)
    (h1 : env.listPods = Except.ok (p :: ps))
    (h2 : env.roundTripper = Except.error e) :
    (PortForward env context t).outcome = ProcOutcome.exited 1 ∧
    (PortForward env context t).outcome.terminatesProcess = true ∧
    (PortForward env context t).events =
      [Event.resolve t.Namespace t.Selector,
       Event.logLine (forwardingLine context t p),
       Event.logLine ("Error: " ++ e ++ "\n")] := by
  obtain ⟨lp, rt, fn, fp⟩ := env
  simp only at h1 h2
  subst h1; subst h2
  exact ⟨rfl, rfl, rfl⟩

/-- Witness for C2 (amended) at a concrete environment. -/
theorem c2_amended_witness :
    upgradeErrorSession.listPods = Except.ok ["x-abc123"] ∧
    (PortForward upgradeErrorSession "minikube" dashboardTunnel).outcome =
      ProcOutcome.exited 1 :=
  ⟨rfl,
    (c2_amended upgradeErrorSession "minikube" dashboardTunnel "x-abc123" []
      "invalid configuration" rfl rfl).1⟩

/-- setupLoop over a block of contexts whose collaborators all succeed:
every tunnel of the block is spawned and the loop continues into the rest. -/
lemma setupLoop_append_ok (env : MainEnv) (cs : List Context)
    (rest : List Context)
    (hok : ∀ c ∈ cs, env.clientConfig c.Name = Except.ok () ∧
      env.newForConfig c.Name = Except.ok ()) :
    setupLoop env (cs ++ rest) =
      (cs.map (fun c => Event.logLine (settingUpLine c.Name c.Tunnels.length)) ++
        (setupLoop env rest).1,
       cs.flatMap (fun c => c.Tunnels.map (fun t => (c.Name, t))) ++
        (setupLoop env rest).2.1,
       (setupLoop env rest).2.2) := by
  induction cs with
  | nil => simp [setupLoop]
  | cons c cs ih =>
      have hc := hok c (by simp)
      have hcs : ∀ c' ∈ cs, env.clientConfig c'.Name = Except.ok () ∧
          env.newForConfig c'.Name = Except.ok () := by
        intro c' hmem
        exact hok c' (by simp [hmem])
      simp only [List.cons_append, setupLoop, hc.1, hc.2]
      simp [ih hcs]

/-- setupLoop when the head context's client-config resolution fails:
the loop panics immediately, spawning nothing. -/
lemma setupLoop_head_auth_error (env : MainEnv) (c : Context)
    (rest : List Context) (e : String)
    (hbad : env.clientConfig c.Name = Except.error e) :
    setupLoop env (c :: rest) =
      ([Event.logLine (settingUpLine c.Name c.Tunnels.length)], [], some e) := by
  simp [setupLoop, hbad]

/-- Counterexample to claim C3 as stated.  The claim says that on an
AuthError only the affected ContextGroup's tunnels never start while the
other ContextGroups proceed with their tunnels.  In envC3 context "c1"
fails auth while "c2" would succeed, yet no tunnel at all is spawned
("c2" never proceeds) and the process dies in a panic. -/
theorem c3_counterexample :
    envC3.clientConfig "c2" = Except.ok () ∧
    (kubeMain envC3).spawned = [] ∧
    (runProcess envC3).outcome = ProcOutcome.panicked "context c1 not found" :=
  ⟨rfl, rfl, rfl⟩

/-- Claim C3 (amended): an AuthError for any ContextGroup makes main
panic, killing the whole process with a non-zero exit code: the failing
group's tunnels never start, no ContextGroup after it in configuration
order ever proceeds, and only groups processed before it had already
spawned their tunnels (which die with the process). -/
theorem c3_amended (env : MainEnv) (s : String) (cfg : Config)
    (cs₁ : List Context) (c : Context) (cs₂ : List Context) (e : String)
    (hread : env.readFile = Except.ok s)
    (hdec : env.decode s = Except.ok cfg)
    (hsplit : cfg.Contexts = cs₁ ++ c :: cs₂)
    (hok : ∀ c' ∈ cs₁, env.clientConfig c'.Name = Except.ok () ∧
      env.newForConfig c'.Name = Except.ok ())
    (hbad : env.clientConfig c.Name = Except.error e) :
    (kubeMain env).outcome = ProcOutcome.panicked e ∧
    (kubeMain env).spawned =
      cs₁.flatMap (fun c' => c'.Tunnels.map (fun t => (c'.Name, t))) ∧
    (runProcess env).outcome = ProcOutcome.panicked e ∧
    exitCodeOf (runProcess env).outcome ≠ 0 := by
  have hloop : setupLoop env cfg.Contexts =
      (cs₁.map (fun c' => Event.logLine (settingUpLine c'.Name c'.Tunnels.length)) ++
        [Event.logLine (settingUpLine c.Name c.Tunnels.length)],
       cs₁.flatMap (fun c' => c'.Tunnels.map (fun t => (c'.Name, t))) ++ [],
       some e) := by
    rw [hsplit, setupLoop_append_ok env cs₁ (c :: cs₂) hok,
      setupLoop_head_auth_error env c cs₂ e hbad]
  have hmain : kubeMain env =
      ⟨Event.configPrinted ::
          (cs₁.map (fun c' => Event.logLine (settingUpLine c'.Name c'.Tunnels.length)) ++
            [Event.logLine (settingUpLine c.Name c.Tunnels.length)]),
        cs₁.flatMap (fun c' => c'.Tunnels.map (fun t => (c'.Name, t))),
        ProcOutcome.panicked e⟩ := by
    unfold kubeMain
    simp [hread, hdec, hloop]
  refine ⟨by rw [hmain], by rw [hmain], ?_, ?_⟩
  · unfold runProcess
    rw [hmain]
    rfl
  · unfold runProcess
    rw [hmain]
    simp [runSessions, exitCodeOf]

/-- Witness for C3 (amended) at envC3 (first context fails auth). -/
theorem c3_amended_witness :
    (kubeMain envC3).outcome = ProcOutcome.panicked "context c1 not found" ∧
    (kubeMain envC3).spawned =
      ([] : List Context).flatMap (fun c' => c'.Tunnels.map (fun t => (c'.Name, t))) ∧
    (runProcess envC3).outcome = ProcOutcome.panicked "context c1 not found" ∧
    exitCodeOf (runProcess envC3).outcome ≠ 0 :=
  c3_amended envC3 "cfg" ⟨[⟨"c1", [dashboardTunnel]⟩, ⟨"c2", [secondTunnel]⟩]⟩
    [] ⟨"c1", [dashboardTunnel]⟩ [⟨"c2", [secondTunnel]⟩] "context c1 not found"
    rfl rfl rfl (fun c' h => absurd h (List.not_mem_nil c')) rfl

/-- Counterexample to claim C4 as stated.  The claim says a configuration
read/decode failure aborts the process before starting any tunnel.  In
envC4 reading the TOML file fails, yet the process does not abort: it
prints the error, prints the (empty) config, runs the empty context loop,
and exits cleanly with code 0. -/
theorem c4_counterexample :
    envC4.readFile =
      Except.error "open kube-tunnel-proxy.toml: no such file or directory" ∧
    (runProcess envC4).outcome = ProcOutcome.exited 0 ∧
    (runProcess envC4).events =
      [Event.logLine "open kube-tunnel-proxy.toml: no such file or directory\n",
       Event.configPrinted] :=
  ⟨rfl, rfl, rfl⟩

/-- Claim C4 (amended): a configuration read or decode failure does not
abort the process; the error is printed and execution continues.  After a
failed read, the decode of the empty data yields an empty configuration,
so no tunnel starts and the process exits cleanly with code 0.  After a
failed decode, execution likewise continues into the context loop with
whatever configuration the decoder left behind. -/
theorem c4_amended (env : MainEnv) (e : String)
    (hread : env.readFile = Except.error e)
    (hdec : env.decode "" = Except.ok ⟨[]⟩) :
    (kubeMain env).outcome = ProcOutcome.returned ∧
    (kubeMain env).spawned = [] ∧
    (kubeMain env).events = [Event.logLine (e ++ "\n"), Event.configPrinted] ∧
    (runProcess env).outcome = ProcOutcome.exited 0 ∧
    (∀ env2 : MainEnv, ∀ s e2 : String, ∀ pcfg : Config,
      env2.readFile = Except.ok s → env2.decode s = Except.error (e2, pcfg) →
      (kubeMain env2).events =
        Event.logLine (e2 ++ "\n") :: Event.configPrinted ::
          (setupLoop env2 pcfg.Contexts).1) := by
  have hmain : kubeMain env =
      ⟨[Event.logLine (e ++ "\n"), Event.configPrinted], [],
        ProcOutcome.returned⟩ := by
    unfold kubeMain
    simp [hread, hdec, setupLoop]
  refine ⟨by rw [hmain], by rw [hmain], by rw [hmain], ?_, ?_⟩
  · unfold runProcess
    rw [hmain]
    rfl
  · intro env2 s e2 pcfg hr hd
    unfold kubeMain
    simp only [hr, hd]
    cases hfin : (setupLoop env2 pcfg.Contexts).2.2 <;> simp [hfin]

/-- Witness for C4 (amended) at envC4. -/
theorem c4_amended_witness :
    (kubeMain envC4).outcome = ProcOutcome.returned ∧
    (runProcess envC4).outcome = ProcOutcome.exited 0 :=
  ⟨(c4_amended envC4 "open kube-tunnel-proxy.toml: no such file or directory"
      rfl rfl).1,
    (c4_amended envC4 "open kube-tunnel-proxy.toml: no such file or directory"
      rfl rfl).2.2.2.1⟩

/-- The spec §8 scenario: one context "c1", one tunnel
{namespace "ns", selector "app=x", 9090, 8000}, cluster query returns no
pods, all other collaborators healthy. -/
def envC5 : MainEnv :=
  { readFile := Except.ok "cfg"
    decode := fun _ => Except.ok ⟨[⟨"c1", [⟨"ns", "app=x", 9090, 8000⟩]⟩]⟩
    clientConfig := fun _ => Except.ok ()
    newForConfig := fun _ => Except.ok ()
    session := fun _ _ => noPodsSession }

/-- Two healthy contexts with one tunnel each. -/
def envC6 : MainEnv :=
  { readFile := Except.ok "cfg"
    decode := fun _ =>
      Except.ok ⟨[⟨"c1", [dashboardTunnel]⟩, ⟨"c2", [secondTunnel]⟩]⟩
    clientConfig := fun _ => Except.ok ()
    newForConfig := fun _ => Except.ok ()
    session := fun _ _ => happySession }

/-- Claim C5: with a selector matching zero pods the Session terminates
without opening a Channel, logging exactly one "no pods found" line (its
trace is exactly the resolve step followed by that line); and in the spec
§8 scenario the process exits with code 0 after all groups finish, having
logged the no-pods line exactly once. -/
theorem c5_no_pods_clean (env : SessionEnv) (context : String) (t : Tunnel)
    (h : env.listPods = Except.ok []) :
    ((PortForward env context t).events =
        [Event.resolve t.Namespace t.Selector,
         Event.logLine (noPodsLine context t.Selector)] ∧
      (PortForward env context t).events.countP isChannelOpenedEvent = 0 ∧
      (PortForward env context t).outcome = ProcOutcome.returned) ∧
    ((runProcess envC5).outcome = ProcOutcome.exited 0 ∧
      exitCodeOf (runProcess envC5).outcome = 0 ∧
      (runProcess envC5).events.count (Event.logLine (noPodsLine "c1" "app=x")) = 1) := by
  obtain ⟨lp, rt, fn, fp⟩ := env
  simp only at h
  subst h
  refine ⟨⟨rfl, ?_, rfl⟩, ⟨rfl, rfl, by decide⟩⟩
  simp [PortForward, isChannelOpenedEvent, List.countP_cons, List.countP_nil]

/-- Witness for C5 at the concrete no-pods environment. -/
theorem c5_no_pods_clean_witness :
    noPodsSession.listPods = Except.ok [] ∧
    (PortForward noPodsSession "c1" ⟨"ns", "app=x", 9090, 8000⟩).outcome =
      ProcOutcome.returned :=
  ⟨rfl,
    (c5_no_pods_clean noPodsSession "c1" ⟨"ns", "app=x", 9090, 8000⟩ rfl).1.2.2⟩

lemma portForward_outcome_ne_exit0 (env : SessionEnv) (context : String)
    (t : Tunnel) : (PortForward env context t).outcome ≠ ProcOutcome.exited 0 := by
  obtain ⟨lp, rt, fn, fp⟩ := env
  cases lp with
  | error e => simp [PortForward]
  | ok pods =>
      cases pods with
      | nil => simp [PortForward]
      | cons p ps => cases rt <;> cases fn <;> cases fp <;> simp [PortForward]

lemma isReturned_eq_true_iff (o : ProcOutcome) :
    o.isReturned = true ↔ o = ProcOutcome.returned := by
  cases o <;> simp [ProcOutcome.isReturned]

/-- wg.Wait semantics: whenever the process reaches the clean exit code 0,
every spawned PortForward goroutine had returned (reached Terminal). -/
lemma runSessions_exit0_all_returned (env : MainEnv) (m : MainResult)
    (h : (runSessions env m).outcome = ProcOutcome.exited 0) :
    ∀ r ∈ (runSessions env m).sessionResults,
      r.2.2.outcome = ProcOutcome.returned := by
  unfold runSessions at h ⊢
  cases hm : m.outcome with
  | panicked e =>
      intro r hr
      simp at hr
  | exited n =>
      intro r hr
      simp at hr
  | returned =>
      dsimp only at h ⊢
      by_cases hall :
          ((spawnResults env m.spawned).all
            (fun r => r.2.2.outcome.isReturned)) = true
      · rw [if_pos hall] at h ⊢
        intro r hr
        exact (isReturned_eq_true_iff _).mp
          (List.all_eq_true.mp hall r (by simpa using hr))
      · rw [if_neg hall] at h ⊢
        cases hfind : ((spawnResults env m.spawned).map
            (fun r => r.2.2.outcome)).find? (fun o => !o.isReturned) with
        | some o =>
            rw [hm] at h
            dsimp only at h ⊢
            exfalso
            have hmem := List.mem_of_find?_eq_some hfind
            obtain ⟨r, hr, hro⟩ := List.mem_map.mp hmem
            obtain ⟨ct, hct, hctr⟩ := List.mem_map.mp hr
            have hne := portForward_outcome_ne_exit0 (env.session ct.1 ct.2) ct.1 ct.2
            apply hne
            rw [← hctr] at hro
            simp only at hro
            rw [hro]
            rw [hfind] at h
            dsimp only at h
            exact h
        | none =>
            dsimp only at h ⊢
            intro r hr
            have hnone := List.find?_eq_none.mp hfind
            have hthis := hnone r.2.2.outcome
              (List.mem_map.mpr ⟨r, by simpa using hr, rfl⟩)
            simp only [Bool.not_eq_true'] at hthis
            exact (isReturned_eq_true_iff _).mp (by simpa using hthis)

/-- Claim C6: main starts exactly one PortForward goroutine per declared
tunnel (over all contexts, in configuration order) when no setup step
panics, and the process reaches its clean exit (code 0 after wg.Wait)
only after every started Session has reached Terminal. -/
theorem c6_one_session_per_spec (env : MainEnv) (s : String) (cfg : Config)
    (hread : env.readFile = Except.ok s)
    (hdec : env.decode s = Except.ok cfg)
    (hok : ∀ c ∈ cfg.Contexts, env.clientConfig c.Name = Except.ok () ∧
      env.newForConfig c.Name = Except.ok ()) :
    (kubeMain env).spawned =
      cfg.Contexts.flatMap (fun c => c.Tunnels.map (fun t => (c.Name, t))) ∧
    (∀ env2 : MainEnv, (runProcess env2).outcome = ProcOutcome.exited 0 →
      ∀ r ∈ (runProcess env2).sessionResults,
        r.2.2.outcome = ProcOutcome.returned) := by
  have hloop := setupLoop_append_ok env cfg.Contexts [] hok
  rw [List.append_nil] at hloop
  constructor
  · unfold kubeMain
    simp [hread, hdec, hloop, setupLoop]
  · intro env2 h2
    exact runSessions_exit0_all_returned env2 (kubeMain env2) h2

/-- Witness for C6 at envC6 (two contexts, one tunnel each). -/
theorem c6_one_session_per_spec_witness :
    (kubeMain envC6).spawned =
      (Config.mk [⟨"c1", [dashboardTunnel]⟩, ⟨"c2", [secondTunnel]⟩]).Contexts.flatMap
        (fun c => c.Tunnels.map (fun t => (c.Name, t))) ∧
    (∀ env2 : MainEnv, (runProcess env2).outcome = ProcOutcome.exited 0 →
      ∀ r ∈ (runProcess env2).sessionResults,
        r.2.2.outcome = ProcOutcome.returned) :=
  c6_one_session_per_spec envC6 "cfg"
    ⟨[⟨"c1", [dashboardTunnel]⟩, ⟨"c2", [secondTunnel]⟩]⟩ rfl rfl
    (fun _ _ => ⟨rfl, rfl⟩)

end KubeTunnelProxy
